import Mathlib

/-!
Verification of the Blendo coffee-quiz core: the quiz progression state
machine (`src/context/QuizContext` reducer and action layer) and the
answer-to-result derivation functions (`src/utils/quizLogic.js` and the
QuizContext-local variant), shallowly embedded in Lean.

JavaScript values that flow through the quiz are modelled by `AnswerValue`
(a string token, an array of string tokens, or a number); JS truthiness,
string coercion and the `||` default operator are modelled explicitly.
Numeric answer values are naturals (the only numbers the quiz produces are
the slider values 1..5); fractional progress percentages are rationals.
-/

/-- A JavaScript value stored as a quiz answer: a string token (radio
answers and the `skipped` sentinel), an array of string tokens
(multi-select answers), or a number (slider answers). -/
inductive AnswerValue where
  | str (s : String)
  | strs (l : List String)
  | num (n : Nat)
deriving DecidableEq, Repr

/-- JS truthiness of an answer value: empty strings and `0` are falsy,
arrays are always truthy. -/
def AnswerValue.truthy : AnswerValue → Bool
  | .str s => s ≠ ""
  | .strs _ => true
  | .num n => n ≠ 0

/-- JS string coercion: arrays join their elements with commas, numbers
print in decimal. -/
def AnswerValue.toJsString : AnswerValue → String
  | .str s => s
  | .strs l => String.intercalate "," l
  | .num n => toString n

/-- The JS `x || d` default idiom applied to an optional slot: an absent or
falsy value is replaced by the default, any truthy value is kept. -/
def jsOr (o : Option AnswerValue) (d : AnswerValue) : AnswerValue :=
  match o with
  | none => d
  | some v => if v.truthy then v else d

/-- JS `.length` of an answer value: string length for strings, array
length for arrays, `undefined` (modelled as `none`) for numbers. -/
def AnswerValue.jsLen : AnswerValue → Option Nat
  | .str s => some s.length
  | .strs l => some l.length
  | .num _ => none

/-- The answer map: one optional slot per question id 1..6.  The exposed
actions only ever write question ids 1..6 (the UI dispatches the current
question id, always in range), so a six-slot record is a faithful model of
the JS `answers` object. -/
structure Answers where
  a1 : Option AnswerValue
  a2 : Option AnswerValue
  a3 : Option AnswerValue
  a4 : Option AnswerValue
  a5 : Option AnswerValue
  a6 : Option AnswerValue
deriving DecidableEq, Repr

/-- The empty answers object `{}`. -/
def Answers.empty : Answers := ⟨none, none, none, none, none, none⟩

/-- Read slot `q` (JS `answers[q]`); ids outside 1..6 are absent. -/
def Answers.get (a : Answers) (q : Nat) : Option AnswerValue :=
  match q with
  | 1 => a.a1
  | 2 => a.a2
  | 3 => a.a3
  | 4 => a.a4
  | 5 => a.a5
  | 6 => a.a6
  | _ => none

/-- Upsert slot `q` (JS `{ ...answers, [q]: v }`); all exposed call sites
pass `1 ≤ q ≤ 6`, other ids leave the six-slot map unchanged. -/
def Answers.set (a : Answers) (q : Nat) (v : AnswerValue) : Answers :=
  match q with
  | 1 => { a with a1 := some v }
  | 2 => { a with a2 := some v }
  | 3 => { a with a3 := some v }
  | 4 => { a with a4 := some v }
  | 5 => { a with a5 := some v }
  | 6 => { a with a6 := some v }
  | _ => a

/-- JS `Object.values(answers)`: the present values in ascending key
order (JS enumerates integer-like keys numerically). -/
def Answers.values (a : Answers) : List AnswerValue :=
  [a.a1, a.a2, a.a3, a.a4, a.a5, a.a6].filterMap id

/-- JS `Object.keys(answers).length`: the number of present slots. -/
def Answers.count (a : Answers) : Nat := a.values.length

/-! ## `src/utils/quizLogic.js` -/

/-- `BLEND_NAMES` from quizLogic.js: the fixed 22-entry blend-name list. -/
def BLEND_NAMES : List String :=
  ["Nocturne 03", "Aurora Blend", "Meridian", "Solstice", "Compass Rose",
   "Twilight", "Zenith", "Harmony", "Cascade", "Ember", "Mosaic", "Prism",
   "Velvet Storm", "Golden Hour", "Obsidian", "Copper Peak", "Silver Moon",
   "Starlight", "Thunder Ridge", "Crimson Dawn", "Mystic Valley", "Iron Mountain"]

/-- One entry of the `ORIGINS` table: region name, flavor-profile tags,
body. -/
structure Origin where
  name : String
  profile : List String
  body : String
deriving DecidableEq, Repr

/-- `ORIGINS` from quizLogic.js: the fixed 10-entry origin table. -/
def ORIGINS : List Origin :=
  [⟨"Ethiopian Yirgacheffe", ["floral", "citrus"], "light"⟩,
   ⟨"Colombian Huila", ["chocolate", "caramel"], "medium"⟩,
   ⟨"Guatemalan Antigua", ["spicy", "chocolate"], "full"⟩,
   ⟨"Brazilian Santos", ["nutty", "chocolate"], "medium"⟩,
   ⟨"Costa Rican Tarrazú", ["citrus", "berry"], "medium"⟩,
   ⟨"Jamaican Blue Mountain", ["floral", "nutty"], "light"⟩,
   ⟨"Hawaiian Kona", ["nutty", "caramel"], "medium"⟩,
   ⟨"Kenyan AA", ["berry", "citrus"], "full"⟩,
   ⟨"Peruvian Organic", ["chocolate", "nutty"], "medium"⟩,
   ⟨"Panamanian Geisha", ["floral", "berry"], "light"⟩]

/-- One entry of the `FLAVOR_PROFILES` table. -/
structure FlavorProfile where
  notes : List String
  intensity : String
  roastPreference : String
deriving DecidableEq, Repr

/-- `FLAVOR_PROFILES` from quizLogic.js, keyed by flavor token. -/
def FLAVOR_PROFILES : String → Option FlavorProfile
  | "chocolate" =>
      some ⟨["Dark chocolate", "Milk chocolate", "Cocoa", "Mocha"], "rich", "medium-dark"⟩
  | "caramel" =>
      some ⟨["Caramel sweetness", "Butterscotch", "Toffee", "Brown sugar"], "sweet", "medium"⟩
  | "citrus" =>
      some ⟨["Bright citrus", "Lemon zest", "Orange", "Grapefruit"], "bright", "light-medium"⟩
  | "berry" =>
      some ⟨["Berry notes", "Blueberry", "Blackcurrant", "Cherry"], "fruity", "light"⟩
  | "nutty" =>
      some ⟨["Toasted hazelnut", "Almond", "Walnut", "Pecan"], "warm", "medium"⟩
  | "floral" =>
      some ⟨["Floral hints", "Jasmine", "Lavender", "Rose"], "delicate", "light"⟩
  | "spicy" =>
      some ⟨["Warm spice", "Cinnamon", "Clove", "Cardamom"], "complex", "dark"⟩
  | _ => none

/-- Sum of UTF-16 char codes of a string (`charCodeAt` over each char; all
answer tokens are ASCII, where char code and code point agree). -/
def charCodeSum (s : String) : Nat :=
  s.data.foldl (fun acc c => acc + c.toNat) 0

/-- `generateBlendName(answers)`: sum the char codes of the concatenation
of all truthy present answer values (stringified in key order) and index
into `BLEND_NAMES` modulo its length. -/
def generateBlendName (answers : Answers) : String :=
  let seed := charCodeSum
    (String.join ((answers.values.filter AnswerValue.truthy).map AnswerValue.toJsString))
  BLEND_NAMES.getD (seed % BLEND_NAMES.length) ""

/-- The `finishNotes` list local to `generateTastingNotes`. -/
def finishNotes : List String :=
  ["Smooth finish", "Clean finish", "Bold finish", "Lingering finish"]

/-- `Math.min(Math.floor((bitterness - 1) / 1.25), 3)` for a numeric
bitterness; a non-numeric bitterness (e.g. the string `skipped`) makes the
JS expression NaN, so the indexing yields `undefined` — modelled as `none`.
For naturals, `floor((n-1)/1.25) = (4*(n-1)) / 5` exactly. -/
def finishIndex : AnswerValue → Option Nat
  | .num n => some (min ((4 * (n - 1)) / 5) (finishNotes.length - 1))
  | _ => none

/-- `generateTastingNotes(flavors, roastPreference, bitterness)`: keep up
to the first 3 truthy non-`skipped` flavors (defaulting to `chocolate`),
map each through `FLAVOR_PROFILES` picking the note indexed by roast
preference, and append the bitterness-bucketed finish note.  A NaN finish
index makes `finishNotes[...]` `undefined`, which `Array.join` renders as
the empty string. -/
def generateTastingNotes (flavors : List AnswerValue) (roastPreference : AnswerValue)
    (bitterness : AnswerValue) : String :=
  let selectedFlavors :=
    (flavors.filter (fun f => f.truthy && f ≠ .str "skipped")).take 3
  let selectedFlavors :=
    if selectedFlavors.isEmpty then [AnswerValue.str "chocolate"] else selectedFlavors
  let notes := selectedFlavors.map (fun flavor =>
    match FLAVOR_PROFILES flavor.toJsString with
    | none => "Complex notes"
    | some profile =>
        let noteIndex :=
          if roastPreference = .str "light" then 0
          else if roastPreference = .str "dark" then profile.notes.length - 1
          else profile.notes.length / 2
        profile.notes.getD noteIndex (profile.notes.getD 0 ""))
  let finishStr :=
    match finishIndex bitterness with
    | some i => finishNotes.getD i ""
    | none => ""
  String.intercalate " • " (notes ++ [finishStr])

/-- `generateOriginBlend(flavors, roastPreference)`: filter `ORIGINS` to
those whose profile contains a selected flavor (strict `===`, so only
string flavors can match), fall back to the full table on no match, take
the first two, and render with a 70/30, 55/45 or 60/40 split by roast. -/
def generateOriginBlend (flavors : List AnswerValue) (roastPreference : AnswerValue) :
    String :=
  let matchingOrigins := ORIGINS.filter (fun origin =>
    flavors.any (fun flavor =>
      match flavor with
      | .str s => origin.profile.contains s
      | _ => false))
  let availableOrigins := if matchingOrigins.isEmpty then ORIGINS else matchingOrigins
  let primary := availableOrigins.getD 0 (ORIGINS.getD 0 ⟨"", [], ""⟩)
  let secondary := availableOrigins.getD 1 (ORIGINS.getD 1 ⟨"", [], ""⟩)
  let primaryPercent : Nat :=
    if roastPreference = .str "light" then 70
    else if roastPreference = .str "dark" then 55 else 60
  let secondaryPercent := 100 - primaryPercent
  primary.name ++ " " ++ toString primaryPercent ++ "% • " ++
    secondary.name ++ " " ++ toString secondaryPercent ++ "%"

/-- `mapRoastLevel(roastPreference)`. -/
def mapRoastLevel (roastPreference : AnswerValue) : String :=
  match roastPreference.toJsString with
  | "light" => "Light Roast"
  | "medium" => "Medium Roast"
  | "dark" => "Dark Roast"
  | _ => "Medium Roast"

/-- `mapGrindSuggestion(brewMethod)`. -/
def mapGrindSuggestion (brewMethod : AnswerValue) : String :=
  match brewMethod.toJsString with
  | "espresso" => "Fine"
  | "pour-over" => "Medium-fine"
  | "drip" => "Medium"
  | "french-press" => "Coarse"
  | "pod" => "Pre-ground"
  | "not-sure" => "Medium"
  | _ => "Medium"

/-- `mapCaffeineLevel(caffeine)`. -/
def mapCaffeineLevel (caffeine : AnswerValue) : String :=
  match caffeine.toJsString with
  | "full" => "Full Caffeine"
  | "half-caf" => "Half Caffeine"
  | "low-decaf" => "Low/Decaf"
  | _ => "Full Caffeine"

/-- `generateDescription(drinkStyle, roastPreference, flavors)`. -/
def generateDescription (drinkStyle roastPreference : AnswerValue) : String :=
  let styleDesc :=
    match drinkStyle.toJsString with
    | "black" => "pure coffee experience"
    | "little-milk" => "lightly enhanced coffee"
    | "milk-sugar" => "balanced sweetened coffee"
    | "sweet-creamy" => "rich, indulgent coffee experience"
    | "not-sure" => "versatile coffee experience"
    | _ => "perfect coffee experience"
  let roastDesc :=
    match roastPreference.toJsString with
    | "light" => "bright and nuanced"
    | "medium" => "well-balanced"
    | "dark" => "bold and robust"
    | _ => "expertly crafted"
  "A carefully crafted blend that matches your taste preferences for " ++ styleDesc ++
    " with " ++ roastDesc ++
    " character. This blend celebrates the unique flavors you love while maintaining perfect balance in every cup."

/-- The result record returned by `generateBlendResult` in quizLogic.js. -/
structure ResultRecord where
  name : String
  notes : String
  origins : String
  roastLevel : String
  grindSuggestion : String
  caffeineLevel : String
  description : String
deriving DecidableEq, Repr

/-- The flavor list read by `generateBlendResult`:
`Array.isArray(answers[3]) ? answers[3] : [answers[3] || 'chocolate']`. -/
def flavorsOf (a3 : Option AnswerValue) : List AnswerValue :=
  match a3 with
  | some (.strs l) => l.map AnswerValue.str
  | o => [jsOr o (.str "chocolate")]

/-- `generateBlendResult(answers)` from quizLogic.js (the deterministic
variant): reads the six slots with `||` defaults and assembles the result
record from the table-driven helpers. -/
def generateBlendResult (answers : Answers) : ResultRecord :=
  let drinkStyle := jsOr answers.a1 (.str "black")
  let roastPreference := jsOr answers.a2 (.str "medium")
  let flavors := flavorsOf answers.a3
  let bitterness := jsOr answers.a4 (.num 3)
  let brewMethod := jsOr answers.a5 (.str "drip")
  let caffeine := jsOr answers.a6 (.str "full")
  { name := generateBlendName answers
    notes := generateTastingNotes flavors roastPreference bitterness
    origins := generateOriginBlend flavors roastPreference
    roastLevel := mapRoastLevel roastPreference
    grindSuggestion := mapGrindSuggestion brewMethod
    caffeineLevel := mapCaffeineLevel caffeine
    description := generateDescription drinkStyle roastPreference }

/-! ## The QuizContext-local result generator (`src/context/QuizContext`)

The quiz-completion path (`actions.nextQuestion`) calls the
`generateBlendResult` defined inside QuizContext, not the quizLogic.js
one.  That variant draws its primary origin, secondary origin and finish
note with `Math.random()`; the three draws are modelled as explicit
arguments `r1 r2 r3`, the values of `Math.floor(Math.random() * len)`
(so `r1, r2 < 10` and `r3 < 4` for real executions). -/

namespace QuizContext

/-- The 12-entry `blendNames` list local to the QuizContext generator. -/
def blendNames : List String :=
  ["Nocturne 03", "Aurora Blend", "Meridian", "Solstice", "Compass Rose",
   "Twilight", "Zenith", "Harmony", "Cascade", "Ember", "Mosaic", "Prism"]

/-- The 10-entry `origins` name list local to the QuizContext generator. -/
def origins : List String :=
  ["Ethiopian Yirgacheffe", "Colombian Huila", "Guatemalan Antigua",
   "Brazilian Santos", "Costa Rican Tarrazú", "Jamaican Blue Mountain",
   "Hawaiian Kona", "Kenyan AA", "Peruvian Organic", "Panamanian Geisha"]

/-- The `flavorMap` table local to the QuizContext generator. -/
def flavorMap : String → Option String
  | "chocolate" => some "Dark chocolate"
  | "caramel" => some "Caramel sweetness"
  | "citrus" => some "Bright citrus"
  | "berry" => some "Berry notes"
  | "nutty" => some "Toasted hazelnut"
  | "floral" => some "Floral hints"
  | "spicy" => some "Warm spice"
  | _ => none

/-- The `finishes` list local to the QuizContext generator. -/
def finishes : List String :=
  ["Smooth finish", "Caramel finish", "Clean finish", "Bold finish"]

/-- The `profileDescriptions` table local to the QuizContext generator. -/
def profileDescriptions : String → Option String
  | "bright-fruity" => some "bright, fruit-forward coffee with vibrant acidity"
  | "rich-chocolatey" => some "rich, chocolatey coffee with bold, deep flavors"
  | "smooth-nutty" => some "smooth, well-balanced coffee with nutty sweetness"
  | _ => none

/-- The record produced by the QuizContext generator; its `name` can be
JS `undefined` (modelled `none`) when
`(flavorProfile.length + roastPreference.length + bitterness)` is NaN,
e.g. when the bitterness slot holds the string `skipped`. -/
structure CtxResult where
  name : Option String
  notes : String
  origins : String
  roastLevel : String
  grindSuggestion : String
  caffeineLevel : String
  description : String
deriving DecidableEq, Repr

/-- `nameIndex = (flavorProfile.length + roastPreference.length +
bitterness) % blendNames.length`: defined (as a Nat) exactly when both
lengths exist and the bitterness is numeric; otherwise the JS value is NaN
and the index is `none`. -/
def nameIndex (flavorProfile roastPreference bitterness : AnswerValue) : Option Nat :=
  match flavorProfile.jsLen, roastPreference.jsLen, bitterness with
  | some l1, some l2, .num n => some ((l1 + l2 + n) % blendNames.length)
  | _, _, _ => none

/-- The QuizContext `generateBlendResult(answers)` with the three
`Math.random()` draws made explicit: `r1`/`r2` index the origins list and
`r3` the finishes list. -/
def generateBlendResult (answers : Answers) (r1 r2 r3 : Nat) : CtxResult :=
  let flavorProfile := jsOr answers.a1 (.str "smooth-nutty")
  let roastPreference := jsOr answers.a2 (.str "medium")
  let flavors := jsOr answers.a3 (.strs ["chocolate"])
  let bitterness := jsOr answers.a4 (.num 3)
  let brewMethod := jsOr answers.a5 (.str "drip")
  let caffeine := jsOr answers.a6 (.str "full")
  let name := (nameIndex flavorProfile roastPreference bitterness).map
    (fun i => blendNames.getD i "")
  let selectedFlavors :=
    match flavors with
    | .strs l => l.map AnswerValue.str
    | v => [v]
  let notes := String.intercalate " • "
    ((selectedFlavors.take 3).map (fun flavor =>
      (flavorMap flavor.toJsString).getD "Complex notes"))
  let primaryOrigin := origins.getD r1 ""
  let secondaryOrigin := origins.getD r2 ""
  let originBreakdown := primaryOrigin ++ " 60% • " ++ secondaryOrigin ++ " 40%"
  let grindSuggestion :=
    match brewMethod.toJsString with
    | "espresso" => "Fine"
    | "pour-over" => "Medium-fine"
    | "drip" => "Medium"
    | "french-press" => "Coarse"
    | "pod" => "Pre-ground"
    | "not-sure" => "Medium"
    | _ => "Medium"
  let roastLevel :=
    match roastPreference.toJsString with
    | "light" => "Light Roast"
    | "medium" => "Medium Roast"
    | "dark" => "Dark Roast"
    | _ => "Medium Roast"
  let finish := finishes.getD r3 ""
  let profileDesc := (profileDescriptions flavorProfile.toJsString).getD
    "perfectly balanced coffee"
  { name := name
    notes := notes ++ " • " ++ finish
    origins := originBreakdown
    roastLevel := roastLevel
    grindSuggestion := grindSuggestion
    caffeineLevel :=
      if caffeine = .str "full" then "Full Caffeine"
      else if caffeine = .str "half-caf" then "Half Caffeine"
      else "Low/Decaf"
    description :=
      "A carefully crafted blend that delivers " ++ profileDesc ++ " with " ++
        roastPreference.toJsString ++
        " roast character. This blend celebrates your unique taste preferences while maintaining perfect balance in every cup." }

end QuizContext

/-! ## The quiz state machine (`src/context/QuizContext` reducer and actions)

Wall-clock reads (`Date.now()`) are modelled by an explicit time argument
to the actions that record one. -/

/-- The reducer state (`initialState` shape): `currentState` is one of the
strings `idle`, `question_1` .. `question_6`, `result`. -/
structure QuizState where
  currentState : String
  currentQuestion : Nat
  answers : Answers
  progress : ℚ
  result : Option QuizContext.CtxResult
  startTime : Option Nat
  completionTime : Option Nat
deriving DecidableEq, Repr

/-- `initialState` from QuizContext. -/
def initialState : QuizState :=
  { currentState := "idle"
    currentQuestion := 1
    answers := Answers.empty
    progress := 0
    result := none
    startTime := none
    completionTime := none }

/-- Reducer case `START_QUIZ` (action `startQuiz(firstAnswer = null)`):
moves to `question_1`, records the start time, and seeds the answers with
the optional first answer (JS truthiness decides the `firstAnswer ? _ : _`
branches). -/
def startQuiz (s : QuizState) (firstAnswer : Option AnswerValue) (t : Nat) : QuizState :=
  let truthyFA := match firstAnswer with
    | some v => v.truthy
    | none => false
  { s with
    currentState := "question_1"
    currentQuestion := 1
    startTime := some t
    answers := match firstAnswer with
      | some v => if v.truthy then { Answers.empty with a1 := some v } else Answers.empty
      | none => Answers.empty
    progress := if truthyFA then (1 / 6 : ℚ) * 100 else (0 / 6 : ℚ) * 100 }

/-- Reducer case `ANSWER_QUESTION` (action `answerQuestion(questionId,
answer)`): upserts the answer and recomputes progress as
`(Object.keys(newAnswers).length / 6) * 100`. -/
def answerQuestion (s : QuizState) (questionId : Nat) (answer : AnswerValue) : QuizState :=
  let newAnswers := s.answers.set questionId answer
  let progress := ((newAnswers.count : ℚ) / 6) * 100
  { s with answers := newAnswers, progress := progress }

/-- Reducer case `NEXT_QUESTION`: past question 6 it enters the `result`
state with progress 100 and a completion time; otherwise it advances one
question and recomputes progress from the question position plus the
answered-count bonus. -/
def nextQuestionReducer (s : QuizState) (t : Nat) : QuizState :=
  let nextQuestion := s.currentQuestion + 1
  if nextQuestion > 6 then
    { s with
      currentState := "result"
      completionTime := some t
      progress := 100 }
  else
    let answeredCount := s.answers.count
    let questionProgress := (((nextQuestion - 1 : Nat) : ℚ) / 6) * 100
    let answerBonus : ℚ := if answeredCount > 0 then ((answeredCount : ℚ) / 6) * 5 else 0
    let newProgress := min (questionProgress + answerBonus) 100
    { s with
      currentQuestion := nextQuestion
      currentState := "question_" ++ toString nextQuestion
      progress := newProgress }

/-- Reducer case `PREVIOUS_QUESTION` (action `previousQuestion()`). -/
def previousQuestion (s : QuizState) : QuizState :=
  let prevQuestion := max 1 (s.currentQuestion - 1)
  let prevAnsweredCount := s.answers.count
  let prevQuestionProgress := (((prevQuestion - 1 : Nat) : ℚ) / 6) * 100
  let prevAnswerBonus : ℚ :=
    if prevAnsweredCount > 0 then ((prevAnsweredCount : ℚ) / 6) * 5 else 0
  let prevProgress := min (prevQuestionProgress + prevAnswerBonus) 100
  { s with
    currentQuestion := prevQuestion
    currentState := if prevQuestion = 1 then "question_1" else "question_" ++ toString prevQuestion
    progress := prevProgress }

/-- Reducer case `GENERATE_RESULT`: stores the generated record and a
completion time. -/
def generateResultReducer (s : QuizState) (r : QuizContext.CtxResult) (t : Nat) : QuizState :=
  { s with result := some r, completionTime := some t }

/-- Action `nextQuestion()`: when the current question is the last one it
first generates the blend result from the accumulated answers (dispatching
`GENERATE_RESULT`), then dispatches `NEXT_QUESTION`; `r1 r2 r3` are the
`Math.random()` draws of the generator and `t` the wall clock. -/
def nextQuestionAct (s : QuizState) (t r1 r2 r3 : Nat) : QuizState :=
  if s.currentQuestion + 1 > 6 then
    nextQuestionReducer
      (generateResultReducer s (QuizContext.generateBlendResult s.answers r1 r2 r3) t) t
  else
    nextQuestionReducer s t

/-- Reducer case `SKIP_QUESTION` (action `skipQuestion(questionId)`):
stores the `skipped` sentinel, recomputes progress from the answer count,
and either advances one question or — past question 6 — enters the
`result` state (without generating a result record). -/
def skipQuestion (s : QuizState) (questionId : Nat) (t : Nat) : QuizState :=
  let skipAnswers := s.answers.set questionId (.str "skipped")
  let skipProgress := ((skipAnswers.count : ℚ) / 6) * 100
  let skipNextQuestion := s.currentQuestion + 1
  if skipNextQuestion > 6 then
    { s with
      answers := skipAnswers
      progress := skipProgress
      currentState := "result"
      completionTime := some t }
  else
    { s with
      answers := skipAnswers
      progress := skipProgress
      currentQuestion := skipNextQuestion
      currentState := "question_" ++ toString skipNextQuestion }

/-- Action `resetQuiz()` (reducer case `RESET_QUIZ`): back to
`initialState`. -/
def resetQuiz (_s : QuizState) : QuizState := initialState

/-- The states reachable from `initialState` through the exposed actions
(`start`, `answer`, `next`, `previous`, `skip`, `reset`), with arbitrary
wall-clock values and random draws; `answer` and `skip` carry the UI
guarantee that the dispatched question id is in 1..6. -/
inductive Reachable : QuizState → Prop where
  | init : Reachable initialState
  | start (s : QuizState) (fa : Option AnswerValue) (t : Nat) :
      Reachable s → Reachable (startQuiz s fa t)
  | answer (s : QuizState) (q : Nat) (v : AnswerValue) :
      Reachable s → 1 ≤ q → q ≤ 6 → Reachable (answerQuestion s q v)
  | next (s : QuizState) (t r1 r2 r3 : Nat) :
      Reachable s → Reachable (nextQuestionAct s t r1 r2 r3)
  | prev (s : QuizState) : Reachable s → Reachable (previousQuestion s)
  | skip (s : QuizState) (q : Nat) (t : Nat) :
      Reachable s → 1 ≤ q → q ≤ 6 → Reachable (skipQuestion s q t)
  | reset (s : QuizState) : Reachable s → Reachable (resetQuiz s)

/-! ## The spec reading of default substitution, and concrete answer sets -/

/-- The substitution the spec describes: an answer slot that is absent or
holds the `skipped` sentinel is replaced by its documented default. -/
def defaultedSlot (o : Option AnswerValue) (d : AnswerValue) : AnswerValue :=
  match o with
  | none => d
  | some v => if v = .str "skipped" then d else v

/-- The spec reading of `generateBlendResult`: the documented defaults
(drink style `black`, roast `medium`, flavors `[chocolate]`, bitterness
`3`, brew method `drip`, caffeine `full`) are substituted for each slot
that is absent or `skipped` before the slot-derived fields are computed;
the blend name is still computed from the raw answers (the spec fixes the
all-skipped name seed to the raw `skipped` concatenation). -/
def generateBlendResultDefaulted (answers : Answers) : ResultRecord :=
  let drinkStyle := defaultedSlot answers.a1 (.str "black")
  let roastPreference := defaultedSlot answers.a2 (.str "medium")
  let flavors :=
    match defaultedSlot answers.a3 (.strs ["chocolate"]) with
    | .strs l => l.map AnswerValue.str
    | v => [v]
  let bitterness := defaultedSlot answers.a4 (.num 3)
  let brewMethod := defaultedSlot answers.a5 (.str "drip")
  let caffeine := defaultedSlot answers.a6 (.str "full")
  { name := generateBlendName answers
    notes := generateTastingNotes flavors roastPreference bitterness
    origins := generateOriginBlend flavors roastPreference
    roastLevel := mapRoastLevel roastPreference
    grindSuggestion := mapGrindSuggestion brewMethod
    caffeineLevel := mapCaffeineLevel caffeine
    description := generateDescription drinkStyle roastPreference }

/-- A slot on which JS `||` defaulting and the spec substitution agree:
absent, or present with a truthy non-`skipped` value. -/
def slotGood (o : Option AnswerValue) : Bool :=
  match o with
  | none => true
  | some v => v.truthy && !(v == .str "skipped")

/-- All six slots are `slotGood`. -/
def goodAnswers (a : Answers) : Bool :=
  slotGood a.a1 && slotGood a.a2 && slotGood a.a3 &&
    slotGood a.a4 && slotGood a.a5 && slotGood a.a6

/-- On a `slotGood` slot, the code's `||` default agrees with the spec
substitution. -/
theorem jsOr_eq_defaultedSlot (o : Option AnswerValue) (d : AnswerValue)
    (h : slotGood o = true) : jsOr o d = defaultedSlot o d := by
  cases o with
  | none => rfl
  | some v =>
    simp only [slotGood, Bool.and_eq_true, bne_iff_ne, ne_eq, decide_eq_true_eq,
      Bool.not_eq_true', beq_eq_false_iff_ne] at h
    simp [jsOr, defaultedSlot, h.1, h.2]

/-- On a `slotGood` flavor slot, the code's flavor-list construction
agrees with the spec substitution followed by the array check. -/
theorem flavorsOf_eq_defaulted (o : Option AnswerValue) (h : slotGood o = true) :
    flavorsOf o =
      (match defaultedSlot o (.strs ["chocolate"]) with
       | .strs l => l.map AnswerValue.str
       | v => [v]) := by
  cases o with
  | none => rfl
  | some v =>
    simp only [slotGood, Bool.and_eq_true, bne_iff_ne, ne_eq, decide_eq_true_eq,
      Bool.not_eq_true', beq_eq_false_iff_ne] at h
    obtain ⟨h1, h2⟩ := h
    cases v with
    | str s =>
      simp only [AnswerValue.truthy, ne_eq, decide_eq_true_eq] at h1
      simp [flavorsOf, defaultedSlot, jsOr, h2, AnswerValue.truthy, h1]
    | strs l => simp [flavorsOf, defaultedSlot, h2]
    | num n =>
      simp only [AnswerValue.truthy, ne_eq, decide_eq_true_eq] at h1
      simp [flavorsOf, defaultedSlot, jsOr, h2, AnswerValue.truthy, h1]

/-- The all-`skipped` answer set: every slot holds the sentinel. -/
def allSkipped : Answers :=
  ⟨some (.str "skipped"), some (.str "skipped"), some (.str "skipped"),
   some (.str "skipped"), some (.str "skipped"), some (.str "skipped")⟩

/-- An answer set whose only present slot is a skipped bitterness. -/
def bitternessSkipped : Answers :=
  ⟨none, none, none, some (.str "skipped"), none, none⟩

/-- The answer set of the spec's end-to-end scenario. -/
def scenarioAnswers : Answers :=
  ⟨some (.str "rich-chocolatey"), some (.str "dark"),
   some (.strs ["chocolate", "spicy"]), some (.num 5),
   some (.str "espresso"), some (.str "full")⟩

/-! ## Claims about the derivation functions -/

/-- C3 (counterexample): the code does not substitute the documented
default for a slot holding `skipped` — the truthy sentinel survives the
JS `||`.  With only the bitterness slot skipped, the finish-note index is
NaN and the notes end in an empty finish, while the claimed substitution
(bitterness default 3) would produce `Clean finish`. -/
theorem C3_skipped_not_defaulted_counterexample :
    (generateBlendResult bitternessSkipped).notes = "Cocoa • " ∧
      (generateBlendResultDefaulted bitternessSkipped).notes = "Cocoa • Clean finish" ∧
      generateBlendResult bitternessSkipped ≠ generateBlendResultDefaulted bitternessSkipped := by
  refine ⟨by decide, by decide, by decide⟩

/-- C3 (amended): the defaults are substituted exactly for the absent
(falsy) slots; on any answer set whose present slots are truthy and not
`skipped`, the code agrees with the documented default substitution. -/
theorem C3_defaults_for_absent_slots (a : Answers) (h : goodAnswers a = true) :
    generateBlendResult a = generateBlendResultDefaulted a := by
  simp only [goodAnswers, Bool.and_eq_true] at h
  obtain ⟨⟨⟨⟨⟨h1, h2⟩, h3⟩, h4⟩, h5⟩, h6⟩ := h
  simp only [generateBlendResult, generateBlendResultDefaulted]
  rw [jsOr_eq_defaultedSlot _ _ h1, jsOr_eq_defaultedSlot _ _ h2,
    flavorsOf_eq_defaulted _ h3, jsOr_eq_defaultedSlot _ _ h4,
    jsOr_eq_defaultedSlot _ _ h5, jsOr_eq_defaultedSlot _ _ h6]

/-- C3 witness: the scenario answer set has only truthy non-skipped slots,
and on it the code equals the defaulted reading. -/
theorem C3_defaults_for_absent_slots_witness :
    goodAnswers scenarioAnswers = true ∧
      generateBlendResult scenarioAnswers = generateBlendResultDefaulted scenarioAnswers :=
  ⟨by decide, C3_defaults_for_absent_slots scenarioAnswers (by decide)⟩

/-- C4 (counterexample): with all six slots `skipped` the notes are
`"Cocoa • "` — the chocolate default drives the flavor phrase, but the
finish slot is empty (NaN index), so no valid finish descriptor from
`finishNotes` is appended. -/
theorem C4_no_finish_descriptor_counterexample :
    (generateBlendResult allSkipped).notes = "Cocoa • " ∧
      ∀ fn ∈ finishNotes, (generateBlendResult allSkipped).notes ≠ "Cocoa • " ++ fn := by
  decide

set_option maxRecDepth 10000 in
/-- C4 (amended): skipping all six questions produces a well-formed record
whose name index is the char-code sum of the literal
`"skippedskippedskippedskippedskippedskipped"` modulo the blend-name list
length (4512 % 22 = 2, `Meridian`) and whose notes come from the default
flavor chocolate — but with an empty finish slot (`"Cocoa • "`), and with
origins from the full-table fallback. -/
theorem C4_all_skipped_record :
    generateBlendResult allSkipped =
      { name := "Meridian"
        notes := "Cocoa • "
        origins := "Ethiopian Yirgacheffe 60% • Colombian Huila 40%"
        roastLevel := "Medium Roast"
        grindSuggestion := "Medium"
        caffeineLevel := "Full Caffeine"
        description := "A carefully crafted blend that matches your taste preferences for perfect coffee experience with expertly crafted character. This blend celebrates the unique flavors you love while maintaining perfect balance in every cup." } ∧
      (generateBlendResult allSkipped).name =
        BLEND_NAMES.getD
          (charCodeSum "skippedskippedskippedskippedskippedskipped" % BLEND_NAMES.length) "" ∧
      charCodeSum "skippedskippedskippedskippedskippedskipped" % BLEND_NAMES.length = 2 := by
  refine ⟨by decide, by decide, by decide⟩

/-- C5 (counterexample): the generator invoked at quiz completion (the
QuizContext variant) is not deterministic over its random draws — two
calls on the same answer set with different `Math.random()` outcomes give
different origin breakdowns. -/
theorem C5_not_deterministic_counterexample :
    QuizContext.generateBlendResult Answers.empty 0 1 0 ≠
      QuizContext.generateBlendResult Answers.empty 1 0 0 := by
  decide

/-- C5 (amended): for the QuizContext generator invoked at quiz
completion, the name, roast level, grind suggestion, caffeine level and
description depend only on the answers — only the origins and the appended
finish note vary with the random draws. -/
theorem C5_draw_independent_fields (a : Answers) (r1 r2 r3 t1 t2 t3 : Nat) :
    (QuizContext.generateBlendResult a r1 r2 r3).name =
      (QuizContext.generateBlendResult a t1 t2 t3).name ∧
    (QuizContext.generateBlendResult a r1 r2 r3).roastLevel =
      (QuizContext.generateBlendResult a t1 t2 t3).roastLevel ∧
    (QuizContext.generateBlendResult a r1 r2 r3).grindSuggestion =
      (QuizContext.generateBlendResult a t1 t2 t3).grindSuggestion ∧
    (QuizContext.generateBlendResult a r1 r2 r3).caffeineLevel =
      (QuizContext.generateBlendResult a t1 t2 t3).caffeineLevel ∧
    (QuizContext.generateBlendResult a r1 r2 r3).description =
      (QuizContext.generateBlendResult a t1 t2 t3).description :=
  ⟨rfl, rfl, rfl, rfl, rfl⟩

/-- C9 (confirmed): the spec scenario — answers `{1: rich-chocolatey,
2: dark, 3: [chocolate, spicy], 4: 5, 5: espresso, 6: full}` — yields Dark
Roast, Fine grind, Full Caffeine, notes made of the two flavor phrases
`Mocha` and `Cardamom` joined with the finish descriptor
`Lingering finish`, and a 55% / 45% origin split. -/
theorem C9_scenario_fields :
    (generateBlendResult scenarioAnswers).roastLevel = "Dark Roast" ∧
      (generateBlendResult scenarioAnswers).grindSuggestion = "Fine" ∧
      (generateBlendResult scenarioAnswers).caffeineLevel = "Full Caffeine" ∧
      (generateBlendResult scenarioAnswers).notes =
        "Mocha" ++ " • " ++ "Cardamom" ++ " • " ++ "Lingering finish" ∧
      "Lingering finish" ∈ finishNotes ∧
      (generateBlendResult scenarioAnswers).origins =
        "Colombian Huila 55% • Guatemalan Antigua 45%" := by
  refine ⟨by decide, by decide, by decide, by decide, by decide, by decide⟩

/-- C10 (confirmed): `generateBlendName` is total and in range — for every
answers object it returns an element of the 22-entry `BLEND_NAMES` list,
and on the empty answers object the seed is 0 and the name is
`Nocturne 03`. -/
theorem C10_blend_name_total_in_range :
    (∀ a : Answers, generateBlendName a ∈ BLEND_NAMES) ∧
      generateBlendName Answers.empty = "Nocturne 03" := by
  constructor
  · intro a
    simp only [generateBlendName]
    have h : charCodeSum
        (String.join ((a.values.filter AnswerValue.truthy).map AnswerValue.toJsString)) %
          BLEND_NAMES.length < BLEND_NAMES.length :=
      Nat.mod_lt _ (by decide)
    rw [List.getD_eq_getElem _ _ h]
    exact List.getElem_mem h
  · decide

/-! ## Claims about the state machine -/

/-- C6 (confirmed): `next()` from question 6 always reaches the `result`
state with the generated record stored (one invocation of the completion
generator over the full answer set), progress 100 and a recorded
completion time, however many questions were answered or skipped. -/
theorem C6_next_from_question_six (s : QuizState) (t r1 r2 r3 : Nat)
    (h : s.currentQuestion = 6) :
    (nextQuestionAct s t r1 r2 r3).currentState = "result" ∧
      (nextQuestionAct s t r1 r2 r3).result =
        some (QuizContext.generateBlendResult s.answers r1 r2 r3) ∧
      (nextQuestionAct s t r1 r2 r3).progress = 100 ∧
      (nextQuestionAct s t r1 r2 r3).completionTime = some t := by
  simp [nextQuestionAct, nextQuestionReducer, generateResultReducer, h]

/-- A state sitting at question 6 with nothing answered. -/
def atQuestionSix : QuizState :=
  { initialState with currentState := "question_6", currentQuestion := 6 }

/-- C6 witness: instantiated at `atQuestionSix` with clock 42 and draws
0, 1, 2. -/
theorem C6_next_from_question_six_witness :
    (nextQuestionAct atQuestionSix 42 0 1 2).currentState = "result" ∧
      (nextQuestionAct atQuestionSix 42 0 1 2).result =
        some (QuizContext.generateBlendResult atQuestionSix.answers 0 1 2) ∧
      (nextQuestionAct atQuestionSix 42 0 1 2).progress = 100 ∧
      (nextQuestionAct atQuestionSix 42 0 1 2).completionTime = some 42 :=
  C6_next_from_question_six atQuestionSix 42 0 1 2 (by decide)

/-- C7 (confirmed): `answer(questionId, value)` keeps the current state
and question, upserts the answer, leaves every other field unchanged, and
sets progress to `(number of present answers / 6) * 100`. -/
theorem C7_answer_upserts_and_recomputes_progress (s : QuizState) (q : Nat)
    (v : AnswerValue) (h1 : 1 ≤ q) (h2 : q ≤ 6) :
    (answerQuestion s q v).currentState = s.currentState ∧
      (answerQuestion s q v).currentQuestion = s.currentQuestion ∧
      (answerQuestion s q v).answers = s.answers.set q v ∧
      (answerQuestion s q v).answers.get q = some v ∧
      (answerQuestion s q v).result = s.result ∧
      (answerQuestion s q v).startTime = s.startTime ∧
      (answerQuestion s q v).completionTime = s.completionTime ∧
      (answerQuestion s q v).progress = (((s.answers.set q v).count : ℚ) / 6) * 100 := by
  refine ⟨rfl, rfl, rfl, ?_, rfl, rfl, rfl, rfl⟩
  interval_cases q <;> rfl

/-- C7 witness: instantiated at the initial state, question 3, value
`citrus`. -/
theorem C7_answer_upserts_witness :
    (answerQuestion initialState 3 (.str "citrus")).currentState = initialState.currentState ∧
      (answerQuestion initialState 3 (.str "citrus")).currentQuestion =
        initialState.currentQuestion ∧
      (answerQuestion initialState 3 (.str "citrus")).answers =
        initialState.answers.set 3 (.str "citrus") ∧
      (answerQuestion initialState 3 (.str "citrus")).answers.get 3 =
        some (.str "citrus") ∧
      (answerQuestion initialState 3 (.str "citrus")).result = initialState.result ∧
      (answerQuestion initialState 3 (.str "citrus")).startTime = initialState.startTime ∧
      (answerQuestion initialState 3 (.str "citrus")).completionTime =
        initialState.completionTime ∧
      (answerQuestion initialState 3 (.str "citrus")).progress =
        (((initialState.answers.set 3 (.str "citrus")).count : ℚ) / 6) * 100 :=
  C7_answer_upserts_and_recomputes_progress initialState 3 (.str "citrus")
    (by decide) (by decide)

/-- C8 (confirmed): `next()` from question N with `1 ≤ N < 6` advances to
question N+1 and sets progress to
`min((N/6)*100 + (countAnswered/6)*5, 100)` — the documented
lookahead-bonus formula (the code's `count > 0` guard is redundant, since
the bonus is 0 when the count is 0). -/
theorem C8_next_progress_formula (s : QuizState) (t r1 r2 r3 : Nat)
    (h1 : 1 ≤ s.currentQuestion) (h2 : s.currentQuestion < 6) :
    (nextQuestionAct s t r1 r2 r3).currentQuestion = s.currentQuestion + 1 ∧
      (nextQuestionAct s t r1 r2 r3).currentState =
        "question_" ++ toString (s.currentQuestion + 1) ∧
      (nextQuestionAct s t r1 r2 r3).progress =
        min (((s.currentQuestion : ℚ) / 6) * 100 + ((s.answers.count : ℚ) / 6) * 5) 100 := by
  have hc : ¬ s.currentQuestion + 1 > 6 := by omega
  simp only [nextQuestionAct, nextQuestionReducer]
  rw [if_neg hc, if_neg hc]
  refine ⟨rfl, rfl, ?_⟩
  simp only [Nat.add_sub_cancel]
  rcases Nat.eq_zero_or_pos s.answers.count with h0 | h0
  · rw [h0]; norm_num
  · rw [if_pos h0]

/-- C8 witness: from the just-started quiz (question 1, no answers),
`next()` reaches question 2 with the formula progress. -/
theorem C8_next_progress_formula_witness :
    (nextQuestionAct (startQuiz initialState none 0) 0 0 0 0).currentQuestion =
      (startQuiz initialState none 0).currentQuestion + 1 ∧
      (nextQuestionAct (startQuiz initialState none 0) 0 0 0 0).currentState =
        "question_" ++ toString ((startQuiz initialState none 0).currentQuestion + 1) ∧
      (nextQuestionAct (startQuiz initialState none 0) 0 0 0 0).progress =
        min ((((startQuiz initialState none 0).currentQuestion : ℚ) / 6) * 100 +
          (((startQuiz initialState none 0).answers.count : ℚ) / 6) * 5) 100 :=
  C8_next_progress_formula (startQuiz initialState none 0) 0 0 0 0
    (by decide) (by decide)

/-- The `NEXT_QUESTION` reducer case never touches the stored result. -/
theorem nextQuestionReducer_result (s : QuizState) (t : Nat) :
    (nextQuestionReducer s t).result = s.result := by
  simp only [nextQuestionReducer]
  split <;> rfl

/-- The `SKIP_QUESTION` reducer case never touches the stored result. -/
theorem skipQuestion_result (s : QuizState) (q t : Nat) :
    (skipQuestion s q t).result = s.result := by
  simp only [skipQuestion]
  split <;> rfl

/-- C1 (amended): the direction of the invariant that survives — in every
reachable state, a stored result comes with a recorded completion time.
The claimed equivalence with `currentState = result` fails in both
directions (see the counterexample; `start` from a completed quiz also
keeps the stale result while leaving the `result` state). -/
theorem C1_result_implies_completion_time (s : QuizState) (h : Reachable s) :
    s.result.isSome = true → s.completionTime.isSome = true := by
  induction h with
  | init => intro hr; simp [initialState] at hr
  | start s fa t _ ih => exact fun hr => ih hr
  | answer s q v _ _ _ ih => exact fun hr => ih hr
  | next s t r1 r2 r3 _ ih =>
    intro hr
    unfold nextQuestionAct at hr ⊢
    by_cases hc : s.currentQuestion + 1 > 6
    · rw [if_pos hc] at hr ⊢
      simp [nextQuestionReducer, generateResultReducer, hc]
    · rw [if_neg hc] at hr ⊢
      rw [nextQuestionReducer_result] at hr
      simp only [nextQuestionReducer]
      rw [if_neg hc]
      exact ih hr
  | prev s _ ih => exact fun hr => ih hr
  | skip s q t _ _ _ ih =>
    intro hr
    rw [skipQuestion_result] at hr
    unfold skipQuestion
    by_cases hc : s.currentQuestion + 1 > 6
    · rw [if_pos hc]; rfl
    · rw [if_neg hc]
      exact ih hr
  | reset s _ ih => intro hr; simp [resetQuiz, initialState] at hr

/-- The state reached by starting the quiz and pressing skip on each of
the six questions in order. -/
def skipAllState : QuizState :=
  skipQuestion (skipQuestion (skipQuestion (skipQuestion (skipQuestion (skipQuestion
    (startQuiz initialState none 0) 1 0) 2 0) 3 0) 4 0) 5 0) 6 0

/-- C1 (counterexample): `skipAllState` is reachable via the exposed
actions, sits in the `result` phase, yet stores no result — `SKIP_QUESTION`
past question 6 enters the result state without generating a record, so
the claimed equivalence is false. -/
theorem C1_complete_without_result_counterexample :
    Reachable skipAllState ∧ skipAllState.currentState = "result" ∧
      skipAllState.result = none := by
  refine ⟨?_, by decide, by decide⟩
  exact Reachable.skip _ 6 0
    (Reachable.skip _ 5 0
      (Reachable.skip _ 4 0
        (Reachable.skip _ 3 0
          (Reachable.skip _ 2 0
            (Reachable.skip _ 1 0
              (Reachable.start initialState none 0 Reachable.init)
              (by decide) (by decide))
            (by decide) (by decide))
          (by decide) (by decide))
        (by decide) (by decide))
      (by decide) (by decide))
    (by decide) (by decide)

/-- The state reached by starting the quiz and pressing next six times
(answering nothing): the sixth `next()` generates and stores the result. -/
def completedState : QuizState :=
  nextQuestionAct (nextQuestionAct (nextQuestionAct (nextQuestionAct (nextQuestionAct
    (nextQuestionAct (startQuiz initialState none 0) 0 0 0 0)
    0 0 0 0) 0 0 0 0) 0 0 0 0) 0 0 0 0) 0 0 0 0

/-- C1 witness: a reachable state with a stored result, at which the
surviving invariant direction yields a recorded completion time. -/
theorem C1_result_implies_completion_time_witness :
    completedState.result.isSome = true ∧ completedState.completionTime.isSome = true := by
  have hre : Reachable completedState :=
    Reachable.next _ 0 0 0 0 (Reachable.next _ 0 0 0 0 (Reachable.next _ 0 0 0 0
      (Reachable.next _ 0 0 0 0 (Reachable.next _ 0 0 0 0 (Reachable.next _ 0 0 0 0
        (Reachable.start initialState none 0 Reachable.init))))))
  exact ⟨by decide, C1_result_implies_completion_time completedState hre (by decide)⟩

/-- C2 (counterexample): from the freshly started quiz (a reachable
state), `skip(1)` and `answer(1, skipped)` followed by `next()` produce
different states — skip leaves progress at `(1/6)*100 = 100/6`, while
`next()` applies the lookahead-bonus formula and yields `35/2`. -/
theorem C2_skip_not_equivalent_counterexample :
    Reachable (startQuiz initialState none 0) ∧
      (skipQuestion (startQuiz initialState none 0) 1 0).progress = (100 : ℚ) / 6 ∧
      (nextQuestionAct (answerQuestion (startQuiz initialState none 0) 1
        (.str "skipped")) 0 0 0 0).progress = (35 : ℚ) / 2 ∧
      skipQuestion (startQuiz initialState none 0) 1 0 ≠
        nextQuestionAct (answerQuestion (startQuiz initialState none 0) 1
          (.str "skipped")) 0 0 0 0 := by
  have hskip : (skipQuestion (startQuiz initialState none 0) 1 0).progress = (100 : ℚ) / 6 := by
    norm_num [skipQuestion, startQuiz, initialState, Answers.set, Answers.empty,
      Answers.count, Answers.values, List.filterMap]
  have hnext : (nextQuestionAct (answerQuestion (startQuiz initialState none 0) 1
      (.str "skipped")) 0 0 0 0).progress = (35 : ℚ) / 2 := by
    norm_num [nextQuestionAct, nextQuestionReducer, answerQuestion, startQuiz, initialState,
      Answers.set, Answers.empty, Answers.count, Answers.values, List.filterMap, min_def]
  refine ⟨Reachable.start initialState none 0 Reachable.init, hskip, hnext, fun h => ?_⟩
  have hp := congrArg QuizState.progress h
  rw [hskip, hnext] at hp
  norm_num at hp

/-- C2 (amended): `skip(q)` agrees with `answer(q, skipped)` followed by
`next()` on the answers, question index, state string, start time and
completion time; it differs in the progress value (no lookahead bonus) and,
at question 6, in the result (skip stores none). Below question 6 the two
paths also agree on the stored result. -/
theorem C2_skip_agrees_except_progress (s : QuizState) (q t r1 r2 r3 : Nat)
    (h1 : 1 ≤ q) (h2 : q ≤ 6) :
    (skipQuestion s q t).answers =
      (nextQuestionAct (answerQuestion s q (.str "skipped")) t r1 r2 r3).answers ∧
      (skipQuestion s q t).currentQuestion =
        (nextQuestionAct (answerQuestion s q (.str "skipped")) t r1 r2 r3).currentQuestion ∧
      (skipQuestion s q t).currentState =
        (nextQuestionAct (answerQuestion s q (.str "skipped")) t r1 r2 r3).currentState ∧
      (skipQuestion s q t).startTime =
        (nextQuestionAct (answerQuestion s q (.str "skipped")) t r1 r2 r3).startTime ∧
      (skipQuestion s q t).completionTime =
        (nextQuestionAct (answerQuestion s q (.str "skipped")) t r1 r2 r3).completionTime ∧
      (s.currentQuestion < 6 →
        (skipQuestion s q t).result =
          (nextQuestionAct (answerQuestion s q (.str "skipped")) t r1 r2 r3).result) := by
  by_cases hc : s.currentQuestion + 1 > 6
  · simp only [skipQuestion, answerQuestion, nextQuestionAct, nextQuestionReducer,
      generateResultReducer, hc, if_true, if_pos]
    exact ⟨trivial, trivial, trivial, trivial, trivial, fun hlt => absurd hc (by omega)⟩
  · simp only [skipQuestion, answerQuestion, nextQuestionAct, nextQuestionReducer,
      generateResultReducer, hc, if_false, if_neg]
    exact ⟨trivial, trivial, trivial, trivial, trivial, fun _ => trivial⟩

/-- C2 witness: instantiated right after `start`, skipping question 1. -/
theorem C2_skip_agrees_except_progress_witness :
    (skipQuestion (startQuiz initialState none 0) 1 0).answers =
      (nextQuestionAct (answerQuestion (startQuiz initialState none 0) 1
        (.str "skipped")) 0 0 0 0).answers ∧
      (skipQuestion (startQuiz initialState none 0) 1 0).currentQuestion =
        (nextQuestionAct (answerQuestion (startQuiz initialState none 0) 1
          (.str "skipped")) 0 0 0 0).currentQuestion ∧
      (skipQuestion (startQuiz initialState none 0) 1 0).currentState =
        (nextQuestionAct (answerQuestion (startQuiz initialState none 0) 1
          (.str "skipped")) 0 0 0 0).currentState ∧
      (skipQuestion (startQuiz initialState none 0) 1 0).startTime =
        (nextQuestionAct (answerQuestion (startQuiz initialState none 0) 1
          (.str "skipped")) 0 0 0 0).startTime ∧
      (skipQuestion (startQuiz initialState none 0) 1 0).completionTime =
        (nextQuestionAct (answerQuestion (startQuiz initialState none 0) 1
          (.str "skipped")) 0 0 0 0).completionTime ∧
      ((startQuiz initialState none 0).currentQuestion < 6 →
        (skipQuestion (startQuiz initialState none 0) 1 0).result =
          (nextQuestionAct (answerQuestion (startQuiz initialState none 0) 1
            (.str "skipped")) 0 0 0 0).result) :=
  C2_skip_agrees_except_progress (startQuiz initialState none 0) 1 0 0 0 0
    (by decide) (by decide)
